import Mathlib

/-!
Verification of the chat-server core of `src/main.py` (a FastAPI WebSocket
chat service).  Python dictionaries are modelled as association lists that
keep insertion order (`dictGet`, `dictSet`, `dictDel`), WebSocket writes are
modelled as an explicit effect list of `(handle id, payload)` pairs, and
Python exceptions (`KeyError`, a failing `send_text`) are modelled with
`Option PyErr` results that also return the state as mutated up to the point
where the exception was raised (Python mutations persist through exceptions).
-/

namespace Conver

/-- Lookup in a Python-dict model: first (and only) binding of the key. -/
def dictGet {α : Type} : List (String × α) → String → Option α
  | [], _ => none
  | (k, v) :: rest, key => if k = key then some v else dictGet rest key

/-- Python `key in d`. -/
def dictContains {α : Type} (d : List (String × α)) (key : String) : Bool :=
  (dictGet d key).isSome

/-- Python `d[key] = v`: update in place if present, append at the end if
absent (Python dicts preserve insertion order). -/
def dictSet {α : Type} : List (String × α) → String → α → List (String × α)
  | [], key, v => [(key, v)]
  | (k, w) :: rest, key, v =>
    if k = key then (key, v) :: rest else (k, w) :: dictSet rest key v

/-- Python `del d[key]`: `none` when the key is absent (a `KeyError`). -/
def dictDel {α : Type} : List (String × α) → String → Option (List (String × α))
  | [], _ => none
  | (k, v) :: rest, key =>
    if k = key then some rest else (dictDel rest key).map (fun r => (k, v) :: r)

theorem dictGet_set_self {α : Type} (d : List (String × α)) (k : String) (v : α) :
    dictGet (dictSet d k v) k = some v := by
  induction d with
  | nil => simp [dictSet, dictGet]
  | cons p rest ih =>
    obtain ⟨k', w⟩ := p
    by_cases h : k' = k <;> simp [dictSet, dictGet, h, ih]

theorem dictGet_set_ne {α : Type} (d : List (String × α)) (k k' : String) (v : α)
    (h : k' ≠ k) : dictGet (dictSet d k v) k' = dictGet d k' := by
  have hne : ¬k = k' := fun hh => h hh.symm
  induction d with
  | nil => simp [dictSet, dictGet, hne]
  | cons p rest ih =>
    obtain ⟨k₀, w⟩ := p
    by_cases h0 : k₀ = k
    · subst h0
      simp [dictSet, dictGet, hne]
    · simp [dictSet, dictGet, h0, ih]

theorem dictContains_set_iff {α : Type} (d : List (String × α)) (k k' : String) (v : α) :
    dictContains (dictSet d k v) k' = true ↔ (k' = k ∨ dictContains d k' = true) := by
  by_cases h : k' = k
  · subst h
    simp [dictContains, dictGet_set_self]
  · simp [dictContains, dictGet_set_ne d k k' v h, h]

theorem dictContains_set_of_contains {α : Type} (d : List (String × α)) (k k' : String)
    (v : α) (hk : dictContains d k = true) :
    dictContains (dictSet d k v) k' = dictContains d k' := by
  by_cases h : k' = k
  · subst h
    simp [dictContains, dictGet_set_self, dictContains] at hk ⊢
    exact hk
  · simp [dictContains, dictGet_set_ne d k k' v h]

theorem dictGet_isSome_of_contains {α : Type} (d : List (String × α)) (k : String)
    (h : dictContains d k = true) : ∃ v, dictGet d k = some v := by
  simp [dictContains, Option.isSome_iff_exists] at h
  exact h

theorem dictDel_eq_none_iff {α : Type} (d : List (String × α)) (k : String) :
    dictDel d k = none ↔ dictContains d k = false := by
  induction d with
  | nil => simp [dictDel, dictContains, dictGet]
  | cons p rest ih =>
    obtain ⟨k₀, w⟩ := p
    by_cases h : k₀ = k
    · simp [dictDel, dictContains, dictGet, h]
    · simp [dictDel, dictContains, dictGet, h, Option.map_eq_none] at ih ⊢
      exact ih

theorem dictGet_not_mem_keys {α : Type} (d : List (String × α)) (k : String)
    (h : k ∉ d.map Prod.fst) : dictGet d k = none := by
  induction d with
  | nil => rfl
  | cons p rest ih =>
    obtain ⟨k₀, w⟩ := p
    simp only [List.map_cons, List.mem_cons, not_or] at h
    have h0 : ¬k₀ = k := fun hh => h.1 hh.symm
    simp [dictGet, h0, ih h.2]

theorem dictGet_del_self {α : Type} (d : List (String × α)) (k : String)
    (d' : List (String × α)) (hnd : (d.map Prod.fst).Nodup)
    (h : dictDel d k = some d') : dictGet d' k = none := by
  induction d generalizing d' with
  | nil => simp [dictDel] at h
  | cons p rest ih =>
    obtain ⟨k₀, w⟩ := p
    simp only [List.map_cons, List.nodup_cons] at hnd
    by_cases h0 : k₀ = k
    · subst h0
      rw [dictDel, if_pos rfl] at h
      injection h with h
      subst h
      exact dictGet_not_mem_keys _ _ hnd.1
    · rw [dictDel, if_neg h0] at h
      cases hdel : dictDel rest k with
      | none => rw [hdel] at h; simp at h
      | some r =>
        rw [hdel] at h
        simp only [Option.map] at h
        injection h with h
        subst h
        simp [dictGet, h0, ih r hnd.2 hdel]

/-- `User` model of `src/main.py` (pydantic `BaseModel`). -/
structure User where
  username : String
  age : Nat
  gender : String
deriving DecidableEq

/-- `Message` model of `src/main.py`. -/
structure Message where
  sender : String
  receiver : String
  content : String
deriving DecidableEq

/-- `Group` model of `src/main.py`. -/
structure Group where
  name : String
  members : List String
deriving DecidableEq

/-- A WebSocket connection handle: an identity plus whether `send_text`
on it succeeds (`ok = false` models a broken transport whose write raises). -/
structure Handle where
  id : Nat
  ok : Bool
deriving DecidableEq

/-- The structured payloads the server writes to sockets (the JSON envelope
built by `json.dumps` in `websocket_endpoint`; the wire encoding itself is an
excluded collaborator, so payloads stay structured). -/
inductive Payload where
  | chat (sender content receiver : String)
  | system (content : String)
deriving DecidableEq

/-- Python exceptions the modelled code can raise. -/
inductive PyErr where
  | keyError (k : String)
  | sendError (id : Nat)
deriving DecidableEq

/-- Return-value domain relevant to `send_personal_message`: the source
returns `None` implicitly; `boolVal` exists only to state the spec's claimed
`bool` result type and is never produced by the embedded code. -/
inductive PyRet where
  | noneVal
  | boolVal (b : Bool)
deriving DecidableEq

/-- The global `ConnectionManager` state of `src/main.py`. -/
structure ConnectionManager where
  active_connections : List (String × Handle)
  users : List (String × User)
  messages : List (String × List (String × List Message))
  groups : List (String × Group)
deriving DecidableEq

/-- The empty manager (`ConnectionManager.__init__`). -/
def init : ConnectionManager := ⟨[], [], [], []⟩

/-- `ConnectionManager.connect` (lines 33-37): register/replace the handle and
ensure a conversation-index entry exists (the `websocket.accept()` call is
transport, not state). -/
def connect (s : ConnectionManager) (username : String) (h : Handle) :
    ConnectionManager :=
  let s := { s with active_connections := dictSet s.active_connections username h }
  if dictContains s.messages username then s
  else { s with messages := dictSet s.messages username [] }

/-- `ConnectionManager.disconnect` (lines 39-40): `del` raises `KeyError`
when the username is absent. -/
def disconnect (s : ConnectionManager) (username : String) :
    ConnectionManager × Option PyErr :=
  match dictDel s.active_connections username with
  | some conns => ({ s with active_connections := conns }, none)
  | none => (s, some (PyErr.keyError username))

/-- `ConnectionManager.send_personal_message` (lines 42-44).  Result:
(writes performed, exception raised, Python return value — `None` unless an
exception escaped). -/
def send_personal_message (s : ConnectionManager) (message : Payload)
    (username : String) :
    List (Nat × Payload) × Option PyErr × Option PyRet :=
  match dictGet s.active_connections username with
  | some h =>
    if h.ok then ([(h.id, message)], none, some PyRet.noneVal)
    else ([], some (PyErr.sendError h.id), none)
  | none => ([], none, some PyRet.noneVal)

/-- Sequential `send_text` over a list of handles; an exception aborts the
remaining sends (the writes already performed are kept). -/
def sendSeq : List Handle → Payload → List (Nat × Payload) × Option PyErr
  | [], _ => ([], none)
  | h :: rest, msg =>
    if h.ok then
      let r := sendSeq rest msg
      ((h.id, msg) :: r.1, r.2)
    else ([], some (PyErr.sendError h.id))

/-- `ConnectionManager.broadcast` (lines 46-48): write to every registered
handle in insertion order, with no error handling around `send_text`. -/
def broadcast (s : ConnectionManager) (message : Payload) :
    List (Nat × Payload) × Option PyErr :=
  sendSeq (s.active_connections.map Prod.snd) message

/-- Fan-out of `send_to_group`: members in list order, skipping offline
members; a failing write aborts the remainder. -/
def groupSend (conns : List (String × Handle)) :
    List String → Payload → List (Nat × Payload) × Option PyErr
  | [], _ => ([], none)
  | m :: rest, msg =>
    match dictGet conns m with
    | some h =>
      if h.ok then
        let r := groupSend conns rest msg
        ((h.id, msg) :: r.1, r.2)
      else ([], some (PyErr.sendError h.id))
    | none => groupSend conns rest msg

/-- `ConnectionManager.send_to_group` (lines 50-54). -/
def send_to_group (s : ConnectionManager) (message : Payload)
    (group_name : String) : List (Nat × Payload) × Option PyErr :=
  match dictGet s.groups group_name with
  | some g => groupSend s.active_connections g.members message
  | none => ([], none)

/-- `ConnectionManager.store_message` (lines 56-63).  Faithful to the
statement order: the sender-side append happens before the receiver-side
lookup, so a `KeyError` on the receiver leaves the sender-side append in
place (the returned state is the state at the point the exception escaped). -/
def store_message (s : ConnectionManager) (sender receiver content : String) :
    ConnectionManager × Option PyErr :=
  let message : Message := ⟨sender, receiver, content⟩
  match dictGet s.messages sender with
  | none => (s, some (PyErr.keyError sender))
  | some sm =>
    let sm' := dictSet sm receiver ((dictGet sm receiver).getD [] ++ [message])
    let s1 := { s with messages := dictSet s.messages sender sm' }
    match dictGet s1.messages receiver with
    | none => (s1, some (PyErr.keyError receiver))
    | some rm =>
      let rm' := dictSet rm sender ((dictGet rm sender).getD [] ++ [message])
      ({ s1 with messages := dictSet s1.messages receiver rm' }, none)

/-- Thread of direct messages as seen from `u`'s side of the store, keyed by
peer `p`; empty when either level of the index is absent. -/
def threadOf (s : ConnectionManager) (u p : String) : List Message :=
  match dictGet s.messages u with
  | some m => (dictGet m p).getD []
  | none => []

/-- Inbound events of the `websocket_endpoint` loop, already decoded (the
spec's closed set of `type` discriminators; `other` is an unrecognized type,
which the elif chain ignores). -/
inductive Event where
  | chat (receiver content : String)
  | create_group (group_name : String)
  | join_group (group_name : String)
  | other
deriving DecidableEq

/-- One iteration of the `websocket_endpoint` receive loop (lines 85-113)
for a decoded event from user `username`.  Result: (state after the
iteration, socket writes performed, exception escaping the iteration). -/
def handle_event (s : ConnectionManager) (username : String) (ev : Event) :
    ConnectionManager × List (Nat × Payload) × Option PyErr :=
  match ev with
  | Event.chat receiver content =>
    if receiver = "main" then
      let r := broadcast s (Payload.chat username content "main")
      (s, r.1, r.2)
    else if receiver.startsWith "group:" then
      let r := send_to_group s (Payload.chat username content receiver)
        (receiver.drop 6)
      (s, r.1, r.2)
    else
      let r := send_personal_message s (Payload.chat username content receiver)
        receiver
      match r.2.1 with
      | some e => (s, r.1, some e)
      | none =>
        let st := store_message s username receiver content
        (st.1, r.1, st.2)
  | Event.create_group group_name =>
    ({ s with groups := dictSet s.groups group_name ⟨group_name, [username]⟩ },
      [], none)
  | Event.join_group group_name =>
    match dictGet s.groups group_name with
    | some g =>
      ({ s with groups :=
          dictSet s.groups group_name { g with members := g.members ++ [username] } },
        [], none)
    | none => (s, [], none)
  | Event.other => (s, [], none)

/-- `GET /inbox/{username}` (lines 136-140): 404 when the username has no
conversation-index entry. -/
def get_inbox (s : ConnectionManager) (username : String) :
    Except Nat (List (String × List Message)) :=
  match dictGet s.messages username with
  | some m => Except.ok m
  | none => Except.error 404

/-- `GET /online_users` (lines 121-128), left-to-right over the connection
registry: looking up an unregistered username raises `KeyError`. -/
def onlineUsersAux (users : List (String × User)) :
    List String → Except PyErr (List (String × String))
  | [] => Except.ok []
  | u :: rest =>
    match dictGet users u with
    | none => Except.error (PyErr.keyError u)
    | some usr =>
      match onlineUsersAux users rest with
      | Except.ok l => Except.ok ((u, usr.gender) :: l)
      | Except.error e => Except.error e

def get_online_users (s : ConnectionManager) :
    Except PyErr (List (String × String)) :=
  onlineUsersAux s.users (s.active_connections.map Prod.fst)

/-- Whether an `Except` result is an uncaught `KeyError`. -/
def raisesKeyError {α : Type} : Except PyErr α → Bool
  | Except.error (PyErr.keyError _) => true
  | _ => false

/-- System-level operations driving the shared state: HTTP registration,
a WebSocket connect, one decoded inbound event on a live handler, and the
`WebSocketDisconnect` path (disconnect + departure broadcast; the broadcast
does not change state). -/
inductive Op where
  | register (u : User)
  | wsConnect (username : String) (h : Handle)
  | wsEvent (username : String) (ev : Event)
  | wsDisconnect (username : String)
deriving DecidableEq

/-- State transition of one operation (writes and escaped exceptions do not
undo the mutations already performed, matching Python). -/
def step (s : ConnectionManager) : Op → ConnectionManager
  | Op.register u =>
    if dictContains s.users u.username then s
    else { s with users := dictSet s.users u.username u }
  | Op.wsConnect username h => connect s username h
  | Op.wsEvent username ev => (handle_event s username ev).1
  | Op.wsDisconnect username => (disconnect s username).1

/-- The state after a sequence of operations from the initial empty state. -/
def run (ops : List Op) : ConnectionManager := ops.foldl step init

/-- Whether an operation is a connect of `u`. -/
def opConnects (u : String) : Op → Bool
  | Op.wsConnect v _ => v == u
  | _ => false

/-- Whether `u` has ever connected during `ops`. -/
def connectedEver (ops : List Op) (u : String) : Bool :=
  ops.any (opConnects u)

/-- Whether an operation is a direct-chat event (the final `else` branch of
the chat dispatch) involving `u` as sender or receiver. -/
def involvesDirect (u : String) : Op → Bool
  | Op.wsEvent w (Event.chat r _) =>
    if r = "main" then false
    else if r.startsWith "group:" then false
    else (w == u || r == u)
  | _ => false

/-! ## C1: group-join idempotence -/

/-- State after user `a` creates group `g` (used to instantiate C1). -/
def c1state : ConnectionManager := (handle_event init "a" (Event.create_group "g")).1

/-- C1 counterexample: after `a` creates `g`, two `join_group` events from the
same user `u` leave `u` in the member list twice, so the member list is not
duplicate-free and the second join is not a no-op. -/
theorem join_group_not_idempotent :
    dictGet (handle_event (handle_event c1state "u" (Event.join_group "g")).1 "u"
        (Event.join_group "g")).1.groups "g"
      = some ⟨"g", ["a", "u", "u"]⟩
    ∧ List.count "u" ["a", "u", "u"] ≠ 1 := by
  decide

/-- C1 (corrected): `join_group` appends the joining username to the member
list unconditionally when the group exists, so joining twice appends twice and
the username ends up counted twice, not once. -/
theorem join_group_appends (s : ConnectionManager) (u g : String) (grp : Group)
    (hg : dictGet s.groups g = some grp) :
    dictGet (handle_event s u (Event.join_group g)).1.groups g
      = some { grp with members := grp.members ++ [u] }
    ∧ dictGet (handle_event (handle_event s u (Event.join_group g)).1 u
        (Event.join_group g)).1.groups g
      = some { grp with members := grp.members ++ [u, u] }
    ∧ List.count u (grp.members ++ [u, u]) = List.count u grp.members + 2 := by
  refine ⟨?_, ?_, ?_⟩
  · simp [handle_event, hg, dictGet_set_self]
  · simp only [handle_event, hg, dictGet_set_self]
    simp [dictGet_set_self]
  · simp [List.count_append]

/-- Witness for C1's corrected theorem at a concrete group state. -/
theorem join_group_appends_witness :
    dictGet (handle_event c1state "u" (Event.join_group "g")).1.groups "g"
      = some ⟨"g", ["a", "u"]⟩
    ∧ dictGet (handle_event (handle_event c1state "u" (Event.join_group "g")).1 "u"
        (Event.join_group "g")).1.groups "g"
      = some ⟨"g", ["a", "u", "u"]⟩
    ∧ List.count "u" (["a"] ++ ["u", "u"]) = List.count "u" ["a"] + 2 :=
  join_group_appends c1state "u" "g" ⟨"g", ["a"]⟩ (by decide)

/-! ## C2: create_group on an existing name -/

/-- C2 counterexample: `a` creates `g`, `b` joins (members `["a","b"]`), then
`c` sends `create_group` for the same name — membership is reset to `["c"]`,
not left unchanged. -/
theorem create_group_resets_members :
    dictGet (handle_event (handle_event init "a" (Event.create_group "g")).1 "b"
        (Event.join_group "g")).1.groups "g"
      = some ⟨"g", ["a", "b"]⟩
    ∧ dictGet (handle_event (handle_event (handle_event init "a"
        (Event.create_group "g")).1 "b" (Event.join_group "g")).1 "c"
        (Event.create_group "g")).1.groups "g"
      = some ⟨"g", ["c"]⟩
    ∧ (some (Group.mk "g" ["c"]) ≠ some (Group.mk "g" ["a", "b"])) := by
  decide

/-- C2 (corrected): handling `create_group` unconditionally overwrites the
group entry with a fresh group whose sole member is the sender — it is not a
no-op on an existing name and resets any existing membership. -/
theorem create_group_overwrites (s : ConnectionManager) (u g : String) :
    (handle_event s u (Event.create_group g)).1.groups
      = dictSet s.groups g ⟨g, [u]⟩
    ∧ dictGet (handle_event s u (Event.create_group g)).1.groups g
      = some ⟨g, [u]⟩ := by
  exact ⟨rfl, by simp [handle_event, dictGet_set_self]⟩

/-! ## C3: disconnect -/

/-- C3 counterexample: connect `u`, disconnect twice.  The second disconnect
raises `KeyError` instead of being a silent no-op. -/
theorem disconnect_raises_when_absent :
    (disconnect (disconnect (connect init "u" ⟨1, true⟩) "u").1 "u").2
      = some (PyErr.keyError "u")
    ∧ (disconnect (disconnect (connect init "u" ⟨1, true⟩) "u").1 "u").2 ≠ none := by
  decide

/-- C3 (corrected): `disconnect` removes the registry entry when present, but
when the username has no registry entry it raises `KeyError` (state unchanged)
rather than silently succeeding. -/
theorem disconnect_semantics (s : ConnectionManager) (u : String) :
    (dictContains s.active_connections u = false →
      disconnect s u = (s, some (PyErr.keyError u)))
    ∧ ((s.active_connections.map Prod.fst).Nodup →
      dictContains s.active_connections u = true →
      (disconnect s u).2 = none
      ∧ dictContains (disconnect s u).1.active_connections u = false) := by
  constructor
  · intro h
    have hdel : dictDel s.active_connections u = none := (dictDel_eq_none_iff _ _).mpr h
    simp [disconnect, hdel]
  · intro hnd h
    cases hdel : dictDel s.active_connections u with
    | none =>
      have hc := (dictDel_eq_none_iff _ _).mp hdel
      rw [hc] at h
      cases h
    | some conns =>
      have hget := dictGet_del_self _ _ _ hnd hdel
      exact ⟨by simp [disconnect, hdel], by simp [disconnect, hdel, dictContains, hget]⟩

/-- Witness for C3's corrected theorem: both branches at concrete states. -/
theorem disconnect_semantics_witness :
    disconnect init "x" = (init, some (PyErr.keyError "x"))
    ∧ ((disconnect (connect init "u" ⟨1, true⟩) "u").2 = none
      ∧ dictContains (disconnect (connect init "u" ⟨1, true⟩) "u").1.active_connections
          "u" = false) :=
  ⟨(disconnect_semantics init "x").1 (by decide),
   (disconnect_semantics (connect init "u" ⟨1, true⟩) "u").2 (by decide) (by decide)⟩

/-! ## C5: send_personal_message -/

theorem dictGet_eq_none_of_not_contains {α : Type} (d : List (String × α))
    (k : String) (h : dictContains d k = false) : dictGet d k = none := by
  cases hv : dictGet d k with
  | none => rfl
  | some v => simp [dictContains, hv] at h

/-- C5 counterexample: `send_personal_message` returns Python `None` both when
the username is registered (not `True`) and when it is offline (not `False`);
it has no `bool` result. -/
theorem send_personal_message_returns_none :
    (send_personal_message (connect init "u" ⟨1, true⟩) (Payload.system "m") "u").2.2
      = some PyRet.noneVal
    ∧ some PyRet.noneVal ≠ some (PyRet.boolVal true)
    ∧ (send_personal_message init (Payload.system "m") "u").2.2 = some PyRet.noneVal
    ∧ some PyRet.noneVal ≠ some (PyRet.boolVal false) := by
  decide

/-- C5 (corrected): `send_personal_message` writes the payload to the handle
exactly when the username is registered (and does not raise when offline), but
it returns `None` in both cases — it provides no `bool` delivery indicator. -/
theorem send_personal_message_semantics (s : ConnectionManager) (m : Payload)
    (u : String) :
    (dictContains s.active_connections u = false →
      send_personal_message s m u = ([], none, some PyRet.noneVal))
    ∧ (∀ h : Handle, dictGet s.active_connections u = some h → h.ok = true →
      send_personal_message s m u = ([(h.id, m)], none, some PyRet.noneVal)) := by
  constructor
  · intro hoff
    have := dictGet_eq_none_of_not_contains _ _ hoff
    simp [send_personal_message, this]
  · intro h hget hok
    simp [send_personal_message, hget, hok]

/-- Witness for C5's corrected theorem: an offline and an online recipient. -/
theorem send_personal_message_semantics_witness :
    send_personal_message init (Payload.system "m") "v" = ([], none, some PyRet.noneVal)
    ∧ send_personal_message (connect init "u" ⟨1, true⟩) (Payload.system "m") "u"
      = ([(1, Payload.system "m")], none, some PyRet.noneVal) :=
  ⟨(send_personal_message_semantics init (Payload.system "m") "v").1 (by decide),
   (send_personal_message_semantics (connect init "u" ⟨1, true⟩)
     (Payload.system "m") "u").2 ⟨1, true⟩ (by decide) (by decide)⟩

/-! ## C7: broadcast -/

theorem sendSeq_all_ok (hs : List Handle) (m : Payload)
    (h : ∀ x ∈ hs, x.ok = true) :
    sendSeq hs m = (hs.map (fun x => (x.id, m)), none) := by
  induction hs with
  | nil => rfl
  | cons a rest ih =>
    have ha : a.ok = true := h a (List.mem_cons_self _ _)
    simp [sendSeq, ha, ih (fun x hx => h x (List.mem_cons_of_mem _ hx))]

theorem sendSeq_fail (l1 : List Handle) (h : Handle) (l2 : List Handle)
    (m : Payload) (hok : ∀ x ∈ l1, x.ok = true) (hfail : h.ok = false) :
    sendSeq (l1 ++ h :: l2) m
      = (l1.map (fun x => (x.id, m)), some (PyErr.sendError h.id)) := by
  induction l1 with
  | nil => simp [sendSeq, hfail]
  | cons a rest ih =>
    have ha : a.ok = true := hok a (List.mem_cons_self _ _)
    simp [sendSeq, ha, ih (fun x hx => hok x (List.mem_cons_of_mem _ hx))]

/-- Connection registry used to exhibit C7's failure behaviour: the middle
handle's write fails. -/
def c7state : ConnectionManager :=
  ⟨[("x", ⟨1, true⟩), ("y", ⟨2, false⟩), ("z", ⟨3, true⟩)], [], [], []⟩

/-- C7 counterexample: with registered handles 1 (ok), 2 (failing), 3 (ok),
`broadcast` writes only to handle 1: the failure on handle 2 is not skipped —
it raises and aborts delivery, so handle 3 receives nothing. -/
theorem broadcast_aborts_on_failure :
    broadcast c7state (Payload.system "m")
      = ([(1, Payload.system "m")], some (PyErr.sendError 2))
    ∧ (3, Payload.system "m") ∉ (broadcast c7state (Payload.system "m")).1
    ∧ (broadcast c7state (Payload.system "m")).2 ≠ none := by
  decide

/-- C7 (corrected): `broadcast` writes the payload exactly once to every
registered handle in registry order when all writes succeed; but a write
failure is not skipped: the exception propagates, so exactly the handles
before the failing one are written and the rest of the fan-out is aborted. -/
theorem broadcast_semantics (s : ConnectionManager) (m : Payload) :
    (s.active_connections.all (fun p => p.2.ok) = true →
      broadcast s m = (s.active_connections.map (fun p => (p.2.id, m)), none))
    ∧ ∀ l1 h l2, s.active_connections.map Prod.snd = l1 ++ h :: l2 →
      (∀ x ∈ l1, x.ok = true) → h.ok = false →
      broadcast s m = (l1.map (fun x => (x.id, m)), some (PyErr.sendError h.id)) := by
  constructor
  · intro hall
    have h1 : ∀ x ∈ s.active_connections.map Prod.snd, x.ok = true := by
      intro x hx
      obtain ⟨p, hp, rfl⟩ := List.mem_map.mp hx
      exact (List.all_eq_true.mp hall) p hp
    rw [broadcast, sendSeq_all_ok _ _ h1, List.map_map]
    rfl
  · intro l1 h l2 hmap hok hfail
    rw [broadcast, hmap, sendSeq_fail l1 h l2 m hok hfail]

/-- All-ok registry used to instantiate C7's happy path. -/
def c7okstate : ConnectionManager :=
  ⟨[("x", ⟨1, true⟩), ("y", ⟨2, true⟩)], [], [], []⟩

/-- Witness for C7's corrected theorem: full fan-out on an all-ok registry and
the aborted fan-out on `c7state`. -/
theorem broadcast_semantics_witness :
    broadcast c7okstate (Payload.system "m")
      = ([(1, Payload.system "m"), (2, Payload.system "m")], none)
    ∧ broadcast c7state (Payload.system "m")
      = ([(1, Payload.system "m")], some (PyErr.sendError 2)) :=
  ⟨(broadcast_semantics c7okstate (Payload.system "m")).1 (by decide),
   (broadcast_semantics c7state (Payload.system "m")).2
     [⟨1, true⟩] ⟨2, false⟩ [⟨3, true⟩] (by decide) (by decide) (by decide)⟩

/-! ## C9: store_message requires existing conversation-index entries -/

/-- Manager with `a` connected (and indexed) and no other state, used to
instantiate C9. -/
def c9state : ConnectionManager := ⟨[("a", ⟨1, true⟩)], [], [("a", [])], []⟩

/-- C9 (confirmed): when the receiver has no conversation-index entry (never
connected), `store_message` raises `KeyError receiver`, and the direct-chat
branch of the handler therefore ends in that uncaught `KeyError`. -/
theorem store_message_requires_entries (s : ConnectionManager) (a b c : String)
    (ha : dictContains s.messages a = true)
    (hb : dictContains s.messages b = false)
    (hmain : b ≠ "main") (hgrp : b.startsWith "group:" = false)
    (hoff : dictGet s.active_connections b = none) :
    (store_message s a b c).2 = some (PyErr.keyError b)
    ∧ (handle_event s a (Event.chat b c)).2.2 = some (PyErr.keyError b) := by
  obtain ⟨sm, hsm⟩ := dictGet_isSome_of_contains _ _ ha
  have hab : a ≠ b := by
    intro hh
    subst hh
    rw [ha] at hb
    cases hb
  have hba : b ≠ a := fun hh => hab hh.symm
  have hgb : dictGet s.messages b = none := dictGet_eq_none_of_not_contains _ _ hb
  have hrw : ∀ v, dictGet (dictSet s.messages a v) b = dictGet s.messages b :=
    fun v => dictGet_set_ne s.messages a b v hba
  have hstore : (store_message s a b c).2 = some (PyErr.keyError b) := by
    simp only [store_message, hsm]
    simp [hrw, hgb]
  refine ⟨hstore, ?_⟩
  simp only [handle_event, if_neg hmain, hgrp, Bool.false_eq_true, if_false,
    send_personal_message, hoff]
  simpa using hstore

/-- Witness for C9: `a` is connected, `x` has never connected, and the direct
chat from `a` to `x` crashes with `KeyError "x"`. -/
theorem store_message_requires_entries_witness :
    (store_message c9state "a" "x" "hi").2 = some (PyErr.keyError "x")
    ∧ (handle_event c9state "a" (Event.chat "x" "hi")).2.2
      = some (PyErr.keyError "x") :=
  store_message_requires_entries c9state "a" "x" "hi" (by decide) (by decide)
    (by decide) (by decide) (by decide)

/-! ## C10: online-users query assumes registration -/

theorem mem_keys_of_contains {α : Type} (d : List (String × α)) (k : String)
    (h : dictContains d k = true) : k ∈ d.map Prod.fst := by
  induction d with
  | nil => simp [dictContains, dictGet] at h
  | cons p rest ih =>
    obtain ⟨k₀, w⟩ := p
    by_cases h0 : k₀ = k
    · simp [h0]
    · simp only [dictContains, dictGet, if_neg h0] at h
      simp [ih h]

theorem onlineUsersAux_error (users : List (String × User)) (l : List String)
    (u : String) (hu : u ∈ l) (hreg : dictGet users u = none) :
    raisesKeyError (onlineUsersAux users l) = true := by
  induction l with
  | nil => cases hu
  | cons a rest ih =>
    cases ha : dictGet users a with
    | none => simp [onlineUsersAux, ha, raisesKeyError]
    | some usr =>
      have hu' : u ∈ rest := by
        rcases List.mem_cons.mp hu with h | h
        · subst h
          rw [ha] at hreg
          cases hreg
        · exact h
      have hrk := ih hu'
      cases hrec : onlineUsersAux users rest with
      | ok l' =>
        rw [hrec] at hrk
        simp [raisesKeyError] at hrk
      | error e =>
        rw [hrec] at hrk
        simp only [onlineUsersAux, ha, hrec]
        exact hrk

/-- C10 (confirmed): if some username is connected but not registered in the
User Registry, `GET /online_users` raises `KeyError` while looking up that
user's profile instead of returning a result. -/
theorem online_users_requires_registration (s : ConnectionManager) (u : String)
    (hconn : dictContains s.active_connections u = true)
    (hreg : dictContains s.users u = false) :
    raisesKeyError (get_online_users s) = true := by
  exact onlineUsersAux_error s.users (s.active_connections.map Prod.fst) u
    (mem_keys_of_contains _ _ hconn)
    (dictGet_eq_none_of_not_contains _ _ hreg)

/-- Manager with `u` connected but never registered, used to instantiate C10. -/
def c10state : ConnectionManager := ⟨[("u", ⟨1, true⟩)], [], [("u", [])], []⟩

/-- Witness for C10 at a concrete state. -/
theorem online_users_requires_registration_witness :
    raisesKeyError (get_online_users c10state) = true :=
  online_users_requires_registration c10state "u" (by decide) (by decide)

/-! ## C4: record round-trip and thread symmetry -/

/-- Core behaviour of a successful `store_message`: when both parties have a
conversation-index entry and differ, it appends the message to both sides and
raises nothing. -/
theorem store_message_ok (s : ConnectionManager) (a b c : String)
    (ha : dictContains s.messages a = true) (hb : dictContains s.messages b = true)
    (hab : a ≠ b) :
    (store_message s a b c).2 = none
    ∧ threadOf (store_message s a b c).1 a b = threadOf s a b ++ [⟨a, b, c⟩]
    ∧ threadOf (store_message s a b c).1 b a = threadOf s b a ++ [⟨a, b, c⟩] := by
  obtain ⟨sm, hsm⟩ := dictGet_isSome_of_contains _ _ ha
  obtain ⟨rm, hrm⟩ := dictGet_isSome_of_contains _ _ hb
  have hba : b ≠ a := fun hh => hab hh.symm
  have h1 : dictGet (dictSet s.messages a
      (dictSet sm b ((dictGet sm b).getD [] ++ [⟨a, b, c⟩]))) b = some rm := by
    rw [dictGet_set_ne _ _ _ _ hba, hrm]
  refine ⟨?_, ?_, ?_⟩
  · simp only [store_message, hsm, h1]
  · have e1 : dictGet (dictSet (dictSet s.messages a
        (dictSet sm b ((dictGet sm b).getD [] ++ [⟨a, b, c⟩])))
        b (dictSet rm a ((dictGet rm a).getD [] ++ [⟨a, b, c⟩]))) a
        = some (dictSet sm b ((dictGet sm b).getD [] ++ [⟨a, b, c⟩])) := by
      rw [dictGet_set_ne _ _ _ _ hab, dictGet_set_self]
    simp only [store_message, hsm, h1, threadOf]
    simp [e1, dictGet_set_self, hsm]
  · have e2 : dictGet (dictSet (dictSet s.messages a
        (dictSet sm b ((dictGet sm b).getD [] ++ [⟨a, b, c⟩])))
        b (dictSet rm a ((dictGet rm a).getD [] ++ [⟨a, b, c⟩]))) b
        = some (dictSet rm a ((dictGet rm a).getD [] ++ [⟨a, b, c⟩])) :=
      dictGet_set_self _ _ _
    simp only [store_message, hsm, h1, threadOf]
    simp [e2, dictGet_set_self, hrm]

/-- Operation trace exhibiting C4's counterexample: `a` connects, a direct
chat from `a` to the never-connected `b` crashes mid-`store_message` (the
sender-side append survives), then `b` connects and `a` reconnects. -/
def c4ops : List Op :=
  [Op.wsConnect "a" ⟨1, true⟩,
   Op.wsEvent "a" (Event.chat "b" "m1"),
   Op.wsConnect "b" ⟨2, true⟩,
   Op.wsConnect "a" ⟨3, true⟩]

/-- C4 counterexample: in the reachable state `run c4ops`, recording `m2` from
`a` to `b` succeeds, yet `a`'s thread for `b` is `[m1, m2]` while `b`'s thread
for `a` is `[m2]`: the two threads are not identical and `m2` does not sit at
the same position, because the earlier crashed `store_message` appended `m1`
on the sender's side only. -/
theorem record_not_atomic :
    (handle_event (run c4ops) "a" (Event.chat "b" "m2")).2.2 = none
    ∧ threadOf (handle_event (run c4ops) "a" (Event.chat "b" "m2")).1 "a" "b"
      = [⟨"a", "b", "m1"⟩, ⟨"a", "b", "m2"⟩]
    ∧ threadOf (handle_event (run c4ops) "a" (Event.chat "b" "m2")).1 "b" "a"
      = [⟨"a", "b", "m2"⟩]
    ∧ ([⟨"a", "b", "m1"⟩, ⟨"a", "b", "m2"⟩] : List Message)
      ≠ [⟨"a", "b", "m2"⟩] := by
  decide

/-- C4 (corrected): provided the two views of the (A,B) thread are identical
before the call (which holds unless an earlier `store_message` for the pair
raised after its sender-side append) and A ≠ B, a successful
`record(A,B,msg)` appends `msg` to both views, both end with `msg` at the
same position, and the two threads remain identical. -/
theorem record_round_trip_symmetric (s : ConnectionManager) (a b c : String)
    (ha : dictContains s.messages a = true) (hb : dictContains s.messages b = true)
    (hab : a ≠ b) (hsym : threadOf s a b = threadOf s b a) :
    (store_message s a b c).2 = none
    ∧ threadOf (store_message s a b c).1 a b = threadOf s a b ++ [⟨a, b, c⟩]
    ∧ threadOf (store_message s a b c).1 b a = threadOf s b a ++ [⟨a, b, c⟩]
    ∧ threadOf (store_message s a b c).1 a b
      = threadOf (store_message s a b c).1 b a := by
  obtain ⟨h1, h2, h3⟩ := store_message_ok s a b c ha hb hab
  exact ⟨h1, h2, h3, by rw [h2, h3, hsym]⟩

/-- Symmetric two-user store used to instantiate C4's corrected theorem. -/
def c4wstate : ConnectionManager := ⟨[], [], [("a", []), ("b", [])], []⟩

/-- Witness for C4's corrected theorem at a concrete symmetric state. -/
theorem record_round_trip_symmetric_witness :
    (store_message c4wstate "a" "b" "hi").2 = none
    ∧ threadOf (store_message c4wstate "a" "b" "hi").1 "a" "b"
      = threadOf c4wstate "a" "b" ++ [⟨"a", "b", "hi"⟩]
    ∧ threadOf (store_message c4wstate "a" "b" "hi").1 "b" "a"
      = threadOf c4wstate "b" "a" ++ [⟨"a", "b", "hi"⟩]
    ∧ threadOf (store_message c4wstate "a" "b" "hi").1 "a" "b"
      = threadOf (store_message c4wstate "a" "b" "hi").1 "b" "a" :=
  record_round_trip_symmetric c4wstate "a" "b" "hi" (by decide) (by decide)
    (by decide) (by decide)

/-! ## C6: direct chat routing -/

/-- Manager with `a` online and `b` online on a broken handle (its writes
raise), both with conversation-index entries: C6's delivery-failure case. -/
def c6badstate : ConnectionManager :=
  ⟨[("a", ⟨1, true⟩), ("b", ⟨2, false⟩)], [], [("a", []), ("b", [])], []⟩

/-- C6 counterexample: the append to the Conversation Store is not
unconditional.  A direct chat from connected `a` to the never-connected
username `x` raises `KeyError` out of the handler and leaves `x`'s side of the
store without the message; and a direct chat to the online receiver `b` whose
handle write fails raises `sendError` before `store_message` runs, so neither
side of the store receives the message even though `b` has a
conversation-index entry. -/
theorem direct_chat_append_not_unconditional :
    (handle_event ⟨[("a", ⟨1, true⟩)], [], [("a", [])], []⟩ "a"
        (Event.chat "x" "hi")).2.2 = some (PyErr.keyError "x")
    ∧ threadOf (handle_event ⟨[("a", ⟨1, true⟩)], [], [("a", [])], []⟩ "a"
        (Event.chat "x" "hi")).1 "x" "a" = []
    ∧ (handle_event c6badstate "a" (Event.chat "b" "hi")).2.2
      = some (PyErr.sendError 2)
    ∧ threadOf (handle_event c6badstate "a" (Event.chat "b" "hi")).1 "a" "b" = []
    ∧ threadOf (handle_event c6badstate "a" (Event.chat "b" "hi")).1 "b" "a" = [] := by
  decide

/-- C6 (corrected): for a plain-username receiver with a conversation-index
entry (has connected at least once), the handler attempts delivery before
recording, in three cases.  Offline receiver: no write, no error, and the
message is appended to both sides of the store.  Online receiver whose handle
write succeeds: exactly one write to that handle, no error, and the message is
appended to both sides.  Online receiver whose handle write fails: the
exception propagates before `store_message`, so no write is recorded, nothing
is appended on either side, and the handler ends in the send error. -/
theorem direct_chat_semantics (s : ConnectionManager) (u r c : String)
    (hmain : r ≠ "main") (hgrp : r.startsWith "group:" = false)
    (hs : dictContains s.messages u = true) (hr : dictContains s.messages r = true)
    (hur : u ≠ r) :
    (dictGet s.active_connections r = none →
      (handle_event s u (Event.chat r c)).2.1 = []
      ∧ (handle_event s u (Event.chat r c)).2.2 = none
      ∧ threadOf (handle_event s u (Event.chat r c)).1 u r
        = threadOf s u r ++ [⟨u, r, c⟩]
      ∧ threadOf (handle_event s u (Event.chat r c)).1 r u
        = threadOf s r u ++ [⟨u, r, c⟩])
    ∧ (∀ h : Handle, dictGet s.active_connections r = some h → h.ok = true →
      (handle_event s u (Event.chat r c)).2.1 = [(h.id, Payload.chat u c r)]
      ∧ (handle_event s u (Event.chat r c)).2.2 = none
      ∧ threadOf (handle_event s u (Event.chat r c)).1 u r
        = threadOf s u r ++ [⟨u, r, c⟩]
      ∧ threadOf (handle_event s u (Event.chat r c)).1 r u
        = threadOf s r u ++ [⟨u, r, c⟩])
    ∧ (∀ h : Handle, dictGet s.active_connections r = some h → h.ok = false →
      handle_event s u (Event.chat r c) = (s, [], some (PyErr.sendError h.id))) := by
  obtain ⟨e0, e1, e2⟩ := store_message_ok s u r c hs hr hur
  refine ⟨?_, ?_, ?_⟩
  · intro hget
    have hh : handle_event s u (Event.chat r c)
        = ((store_message s u r c).1, [], (store_message s u r c).2) := by
      simp only [handle_event, if_neg hmain, hgrp, Bool.false_eq_true, if_false,
        send_personal_message, hget]
    rw [hh]
    exact ⟨rfl, e0, e1, e2⟩
  · intro h hget hok
    have hh : handle_event s u (Event.chat r c)
        = ((store_message s u r c).1, [(h.id, Payload.chat u c r)],
           (store_message s u r c).2) := by
      simp only [handle_event, if_neg hmain, hgrp, Bool.false_eq_true, if_false,
        send_personal_message, hget, hok, if_true]
    rw [hh]
    exact ⟨rfl, e0, e1, e2⟩
  · intro h hget hok
    simp only [handle_event, if_neg hmain, hgrp, Bool.false_eq_true, if_false,
      send_personal_message, hget, hok]

/-- Manager with `a` online, `b` offline but previously connected, used to
instantiate C6 (the spec's "delivers nothing live but still records" case). -/
def c6state : ConnectionManager :=
  ⟨[("a", ⟨1, true⟩)], [], [("a", []), ("b", [])], []⟩

/-- Manager with `a` and `b` online on working handles, used to instantiate
C6's successful-delivery case. -/
def c6okstate : ConnectionManager :=
  ⟨[("a", ⟨1, true⟩), ("b", ⟨2, true⟩)], [], [("a", []), ("b", [])], []⟩

/-- Witness for C6's corrected theorem: all three cases at concrete states —
offline receiver (recorded, not delivered), online receiver with a working
handle (delivered and recorded), and online receiver with a broken handle
(neither delivered nor recorded). -/
theorem direct_chat_semantics_witness :
    ((handle_event c6state "a" (Event.chat "b" "hi")).2.1 = []
      ∧ (handle_event c6state "a" (Event.chat "b" "hi")).2.2 = none
      ∧ threadOf (handle_event c6state "a" (Event.chat "b" "hi")).1 "a" "b"
        = threadOf c6state "a" "b" ++ [⟨"a", "b", "hi"⟩]
      ∧ threadOf (handle_event c6state "a" (Event.chat "b" "hi")).1 "b" "a"
        = threadOf c6state "b" "a" ++ [⟨"a", "b", "hi"⟩])
    ∧ ((handle_event c6okstate "a" (Event.chat "b" "hi")).2.1
        = [(2, Payload.chat "a" "hi" "b")]
      ∧ (handle_event c6okstate "a" (Event.chat "b" "hi")).2.2 = none
      ∧ threadOf (handle_event c6okstate "a" (Event.chat "b" "hi")).1 "a" "b"
        = threadOf c6okstate "a" "b" ++ [⟨"a", "b", "hi"⟩]
      ∧ threadOf (handle_event c6okstate "a" (Event.chat "b" "hi")).1 "b" "a"
        = threadOf c6okstate "b" "a" ++ [⟨"a", "b", "hi"⟩])
    ∧ handle_event c6badstate "a" (Event.chat "b" "hi")
      = (c6badstate, [], some (PyErr.sendError 2)) :=
  ⟨(direct_chat_semantics c6state "a" "b" "hi" (by decide) (by decide) (by decide)
      (by decide) (by decide)).1 (by decide),
   (direct_chat_semantics c6okstate "a" "b" "hi" (by decide) (by decide) (by decide)
      (by decide) (by decide)).2.1 ⟨2, true⟩ (by decide) (by decide),
   (direct_chat_semantics c6badstate "a" "b" "hi" (by decide) (by decide) (by decide)
      (by decide) (by decide)).2.2 ⟨2, false⟩ (by decide) (by decide)⟩

/-! ## C8: inbox not-found exactly for never-connected usernames -/

theorem store_message_messages_contains (s : ConnectionManager) (a b c u : String) :
    dictContains (store_message s a b c).1.messages u
      = dictContains s.messages u := by
  cases hsm : dictGet s.messages a with
  | none => simp [store_message, hsm]
  | some sm =>
    have hca : dictContains s.messages a = true := by simp [dictContains, hsm]
    cases hrm : dictGet (dictSet s.messages a
        (dictSet sm b ((dictGet sm b).getD [] ++ [⟨a, b, c⟩]))) b with
    | none =>
      simp only [store_message, hsm, hrm]
      exact dictContains_set_of_contains _ _ _ _ hca
    | some rm =>
      have hcb : dictContains (dictSet s.messages a
          (dictSet sm b ((dictGet sm b).getD [] ++ [⟨a, b, c⟩]))) b = true := by
        simp [dictContains, hrm]
      simp only [store_message, hsm, hrm]
      rw [dictContains_set_of_contains _ _ _ _ hcb,
        dictContains_set_of_contains _ _ _ _ hca]

theorem handle_event_messages_contains (s : ConnectionManager) (w : String)
    (ev : Event) (u : String) :
    dictContains (handle_event s w ev).1.messages u
      = dictContains s.messages u := by
  cases ev with
  | chat r c =>
    by_cases hm : r = "main"
    · simp [handle_event, hm]
    · by_cases hg : r.startsWith "group:" = true
      · simp [handle_event, hm, hg]
      · cases hsend : (send_personal_message s (Payload.chat w c r) r).2.1 with
        | some e => simp [handle_event, hm, hg, hsend]
        | none => simp [handle_event, hm, hg, hsend, store_message_messages_contains]
  | create_group g => simp [handle_event]
  | join_group g => cases hget : dictGet s.groups g <;> simp [handle_event, hget]
  | other => simp [handle_event]

theorem connect_messages_of_contains (s : ConnectionManager) (v : String)
    (hd : Handle) (hc : dictContains s.messages v = true) :
    (connect s v hd).messages = s.messages := by
  simp [connect, hc]

theorem connect_messages_of_not_contains (s : ConnectionManager) (v : String)
    (hd : Handle) (hc : dictContains s.messages v = false) :
    (connect s v hd).messages = dictSet s.messages v [] := by
  simp [connect, hc]

theorem step_messages_contains (s : ConnectionManager) (op : Op) (u : String) :
    dictContains (step s op).messages u = true
      ↔ (dictContains s.messages u = true ∨ opConnects u op = true) := by
  cases op with
  | register usr =>
    simp only [step, opConnects]
    split <;> simp
  | wsConnect v h =>
    simp only [step, opConnects]
    by_cases hc : dictContains s.messages v = true
    · rw [connect_messages_of_contains s v h hc]
      constructor
      · exact fun hh => Or.inl hh
      · rintro (hh | hh)
        · exact hh
        · have hvu : v = u := by simpa using hh
          subst hvu
          exact hc
    · rw [connect_messages_of_not_contains s v h (by simpa using hc)]
      rw [dictContains_set_iff]
      constructor
      · rintro (hh | hh)
        · subst hh
          exact Or.inr (by simp)
        · exact Or.inl hh
      · rintro (hh | hh)
        · exact Or.inr hh
        · have hvu : v = u := by simpa using hh
          subst hvu
          exact Or.inl rfl
  | wsEvent w ev =>
    simp only [step, opConnects]
    rw [handle_event_messages_contains]
    simp
  | wsDisconnect v =>
    cases hdel : dictDel s.active_connections v <;>
      simp [step, disconnect, hdel, opConnects]

theorem run_messages_contains (ops : List Op) (u : String) :
    ∀ s : ConnectionManager,
      dictContains ((ops.foldl step s)).messages u = true
        ↔ (dictContains s.messages u = true
            ∨ ∃ op ∈ ops, opConnects u op = true) := by
  induction ops with
  | nil =>
    intro s
    simp
  | cons op ops ih =>
    intro s
    rw [List.foldl_cons, ih (step s op), step_messages_contains]
    constructor
    · rintro ((hh | hh) | hh)
      · exact Or.inl hh
      · exact Or.inr ⟨op, List.mem_cons_self _ _, hh⟩
      · obtain ⟨o, ho, hho⟩ := hh
        exact Or.inr ⟨o, List.mem_cons_of_mem _ ho, hho⟩
    · rintro (hh | ⟨o, ho, hho⟩)
      · exact Or.inl (Or.inl hh)
      · rcases List.mem_cons.mp ho with rfl | ho'
        · exact Or.inl (Or.inr hho)
        · exact Or.inr ⟨o, ho', hho⟩

theorem store_message_messages_get (s : ConnectionManager) (a b c u : String)
    (hau : a ≠ u) (hbu : b ≠ u) :
    dictGet (store_message s a b c).1.messages u = dictGet s.messages u := by
  cases hsm : dictGet s.messages a with
  | none => simp [store_message, hsm]
  | some sm =>
    cases hrm : dictGet (dictSet s.messages a
        (dictSet sm b ((dictGet sm b).getD [] ++ [⟨a, b, c⟩]))) b with
    | none =>
      simp only [store_message, hsm, hrm]
      exact dictGet_set_ne _ _ _ _ (Ne.symm hau)
    | some rm =>
      simp only [store_message, hsm, hrm]
      rw [dictGet_set_ne _ _ _ _ (Ne.symm hbu), dictGet_set_ne _ _ _ _ (Ne.symm hau)]

theorem handle_event_messages_get (s : ConnectionManager) (w : String)
    (ev : Event) (u : String) (h : involvesDirect u (Op.wsEvent w ev) = false) :
    dictGet (handle_event s w ev).1.messages u = dictGet s.messages u := by
  cases ev with
  | chat r c =>
    by_cases hm : r = "main"
    · simp [handle_event, hm]
    · by_cases hg : r.startsWith "group:" = true
      · simp [handle_event, hm, hg]
      · have hwr : ¬(w = u) ∧ ¬(r = u) := by
          simpa [involvesDirect, hm, hg] using h
        cases hsend : (send_personal_message s (Payload.chat w c r) r).2.1 with
        | some e => simp [handle_event, hm, hg, hsend]
        | none =>
          simp only [handle_event, if_neg hm, hg, Bool.false_eq_true, if_false,
            hsend]
          exact store_message_messages_get s w r c u hwr.1 hwr.2
  | create_group g => simp [handle_event]
  | join_group g => cases hget : dictGet s.groups g <;> simp [handle_event, hget]
  | other => simp [handle_event]

theorem step_messages_get (s : ConnectionManager) (op : Op) (u : String)
    (h : involvesDirect u op = false) :
    dictGet (step s op).messages u = dictGet s.messages u
    ∨ dictGet (step s op).messages u = some [] := by
  cases op with
  | register usr =>
    left
    simp only [step]
    split <;> rfl
  | wsConnect v hd =>
    by_cases hv : v = u
    · subst hv
      simp only [step, connect]
      split
      · left; rfl
      · right; exact dictGet_set_self _ _ _
    · simp only [step, connect]
      split
      · left; rfl
      · left; exact dictGet_set_ne _ _ _ _ (fun hh => hv hh.symm)
  | wsEvent w ev =>
    left
    exact handle_event_messages_get s w ev u h
  | wsDisconnect v =>
    left
    cases hdel : dictDel s.active_connections v <;> simp [step, disconnect, hdel]

theorem run_messages_get (ops : List Op) (u : String) :
    ∀ s : ConnectionManager, (∀ op ∈ ops, involvesDirect u op = false) →
      dictGet ((ops.foldl step s)).messages u = dictGet s.messages u
      ∨ dictGet ((ops.foldl step s)).messages u = some [] := by
  induction ops with
  | nil =>
    intro s _
    left
    rfl
  | cons op ops ih =>
    intro s h
    have h1 := step_messages_get s op u (h op (List.mem_cons_self _ _))
    have h2 := ih (step s op) (fun o ho => h o (List.mem_cons_of_mem _ ho))
    rw [List.foldl_cons]
    rcases h2 with h2 | h2
    · rcases h1 with h1 | h1
      · left
        rw [h2, h1]
      · right
        rw [h2, h1]
    · right
      exact h2

/-- C8 (confirmed): over every operation trace from the empty state, the inbox
query yields "not found" (404) exactly when the username has never connected;
and a username that has connected but was never involved in a direct chat
yields a found-but-empty mapping, because `connect` initializes an empty
conversation-index entry. -/
theorem inbox_not_found_iff_never_connected (ops : List Op) (u : String) :
    (get_inbox (run ops) u = Except.error 404 ↔ connectedEver ops u = false)
    ∧ (connectedEver ops u = true →
       (∀ op ∈ ops, involvesDirect u op = false) →
       get_inbox (run ops) u = Except.ok []) := by
  have key : dictContains (run ops).messages u = true
      ↔ connectedEver ops u = true := by
    rw [run, run_messages_contains ops u init]
    rw [connectedEver, List.any_eq_true]
    simp [init, dictContains, dictGet]
  constructor
  · cases hget : dictGet (run ops).messages u with
    | none =>
      have hcf : dictContains (run ops).messages u = false := by
        simp [dictContains, hget]
      constructor
      · intro _
        cases hce : connectedEver ops u
        · rfl
        · have := key.mpr hce
          rw [hcf] at this
          cases this
      · intro _
        simp [get_inbox, hget]
    | some m =>
      have hct : dictContains (run ops).messages u = true := by
        simp [dictContains, hget]
      have hce := key.mp hct
      constructor
      · intro he
        simp [get_inbox, hget] at he
      · intro hcf
        rw [hce] at hcf
        cases hcf
  · intro hce hno
    rcases run_messages_get ops u init hno with h | h
    · have hnone : dictGet (run ops).messages u = none := by
        rw [run, h]
        rfl
      have hct := key.mpr hce
      rw [dictContains, hnone] at hct
      cases hct
    · have hsome : dictGet (run ops).messages u = some [] := by
        rw [run, h]
      simp [get_inbox, hsome]

/-- Witness for C8: `a` connects and exchanges no direct messages; the inbox
is found but empty. -/
theorem inbox_not_found_iff_never_connected_witness :
    get_inbox (run [Op.wsConnect "a" ⟨1, true⟩]) "a" = Except.ok [] :=
  (inbox_not_found_iff_never_connected [Op.wsConnect "a" ⟨1, true⟩] "a").2
    (by decide) (by decide)

end Conver
